import Mathlib

namespace YellowPay

/-!
# yellowpay — verification of the off-chain settlement client

Shallow embedding of the Yellow Network client (`YellowProvider`):
the correlated transport (`sendMessage`), the authentication handshake
data (`connect`), the deposit and recovery sagas (`depositToYellow`,
`recoverCustodyFunds`), channel withdrawal (`withdrawFromChannel`) and
connection teardown (`disconnect`).
-/

/-! ## Correlated transport (`sendMessage`)

An incoming WebSocket frame, as seen by the `handleMessage` listener in
`sendMessage`: `resField = some l` when the frame parses as JSON and its
`res` field is an array (carried as the list of its integer elements);
`resField = none` when the frame fails to parse or has no structured
`res` array (heartbeats, protocol messages). `raw` is the raw data
string with which the promise resolves. -/
structure Frame where
  raw : String
  resField : Option (List Int)
deriving Repr, DecidableEq

/-- An outgoing message: `reqField = some l` when it parses as JSON with a
`req` array `l`; `none` when parsing fails or there is no `req` array. -/
structure OutMessage where
  reqField : Option (List Int)
deriving Repr, DecidableEq

/-- `sendMessage` lines 124–132: extract the request ID from the outgoing
message. The ID is `req[0]`, present only when `req` is a non-empty array;
on JSON parse failure or a missing/empty `req` the ID stays `null`. -/
def extractRequestId (m : OutMessage) : Option Int :=
  match m.reqField with
  | some l => l.head?
  | none => none

/-- `handleMessage` lines 134–160: a frame settles the waiter iff it has a
structured `res` array, and — when a request ID was extracted — the
response ID `res[0]` equals it. With no extracted ID any `res`-carrying
frame is accepted. -/
def frameAccepted (requestId : Option Int) (f : Frame) : Bool :=
  match f.resField with
  | none => false
  | some res =>
    match requestId with
    | none => true
    | some rid =>
      match res.head? with
      | some responseId => responseId == rid
      | none => false

/-- The outcome of one `sendMessage` call given the stream of frames that
arrive before the 30 s timeout: the first accepted frame resolves the
promise; `none` models rejection by timeout. -/
def sendMessageResult (requestId : Option Int) (frames : List Frame) : Option Frame :=
  frames.find? (frameAccepted requestId)

/-- The embedded response ID of a frame (`res[0]`), when present. -/
def frameResponseId (f : Frame) : Option Int :=
  f.resField.bind List.head?

/-! ## JS `String.prototype.includes` -/

/-- Substring occurrence on character lists: `pat` occurs contiguously in
`s`. Mirrors the semantics of JavaScript `s.includes(pat)`. -/
def containsSub (pat : List Char) : List Char → Bool
  | [] => pat.isEmpty
  | c :: rest => pat.isPrefixOf (c :: rest) || containsSub pat rest

/-- JavaScript `s.includes(pat)` on Lean strings. -/
def strContains (s pat : String) : Bool :=
  containsSub pat.toList s.toList

/-! ## Constants (`src/lib/constants.ts`)

`YELLOW_WS_ENDPOINT` reads `process.env.NEXT_PUBLIC_YELLOW_WS` with a
sandbox default; the environment variable is a parameter here (`none` or
`some ""` both fall back, as `||` does in JS). -/

def defaultWsEndpoint : String := "wss://clearnet-sandbox.yellow.com/ws"

def YELLOW_WS_ENDPOINT (envEndpoint : Option String) : String :=
  match envEndpoint with
  | some s => if s = "" then defaultWsEndpoint else s
  | none => defaultWsEndpoint

def IS_SANDBOX (envEndpoint : Option String) : Bool :=
  strContains (YELLOW_WS_ENDPOINT envEndpoint) "sandbox"

def SANDBOX_ASSET : String := "ytest.usd"

def DEFAULT_ASSET (envEndpoint : Option String) : String :=
  if IS_SANDBOX envEndpoint then SANDBOX_ASSET else "usdc"

/-! ## Authentication handshake data (`connect`, lines 208–260) -/

/-- Application name — used in both auth_request and EIP-712 domain
(line 71). -/
def APPLICATION_NAME : String := "yellowpay"

/-- One spending allowance entry `{ asset, amount }`. -/
structure Allowance where
  asset : String
  amount : String
deriving Repr, DecidableEq

/-- Parameters of the `auth_request` message built by
`createAuthRequestMessage` (lines 223–230). -/
structure AuthRequestParams where
  address : String
  session_key : String
  application : String
  allowances : List Allowance
  expires_at : Int
  scope : String
deriving Repr, DecidableEq

/-- EIP-712 domain passed to `createEIP712AuthMessageSigner`
(lines 237–239). -/
structure EIP712AuthDomain where
  name : String
deriving Repr, DecidableEq

/-- `PartialEIP712AuthMessage` signed in `auth_verify` (lines 242–247). -/
structure PartialEIP712AuthMessage where
  scope : String
  session_key : String
  expires_at : Int
  allowances : List Allowance
deriving Repr, DecidableEq

/-- The three pieces of data `connect` builds for the handshake. -/
structure AuthHandshakeData where
  request : AuthRequestParams
  eip712Domain : EIP712AuthDomain
  partialMessage : PartialEIP712AuthMessage
deriving Repr, DecidableEq

/-- `connect` lines 216–247: the auth request parameters, the EIP-712
domain, and the partial message for verification, built from the wallet
address, the freshly generated session key address and the expiry. -/
def connectAuthHandshake (envEndpoint : Option String)
    (address sessionKeyAddress : String) (expiresAt : Int) :
    AuthHandshakeData :=
  let allowances : List Allowance :=
    [{ asset := DEFAULT_ASSET envEndpoint, amount := "1000000000" }]
  let scope : String := "console"
  { request :=
      { address := address
        session_key := sessionKeyAddress
        application := APPLICATION_NAME
        allowances := allowances
        expires_at := expiresAt
        scope := scope }
    eip712Domain := { name := APPLICATION_NAME }
    partialMessage :=
      { scope := scope
        session_key := sessionKeyAddress
        expires_at := expiresAt
        allowances := allowances } }

/-! ## Error reporting in `connect` (lines 264–307) -/

/-- Line 266–270: an explicit error frame during the auth flow throws
`Authentication error: <server text>`, defaulting the empty server text
to `Unknown authentication error` (JS `errorParams.error || ...`). -/
def authErrorMessage (serverError : String) : String :=
  "Authentication error: " ++
    (if serverError = "" then "Unknown authentication error" else serverError)

/-- Lines 292–303: the user-facing message derived from the technical
error message in `connect`'s catch block. -/
def connectUserMessage (technicalMessage : String) : String :=
  if strContains technicalMessage "WebSocket" then
    "Network connection failed. Please check your internet and try again."
  else if strContains technicalMessage "timeout" then
    "Connection timed out. Please try again."
  else if strContains technicalMessage "rejected"
      || strContains technicalMessage "denied" then
    "Signature request was declined."
  else if strContains technicalMessage "Authentication error" then
    technicalMessage
  else
    "Unable to connect. Please try again."

/-! ## Allocate-to-ledger retry loop
(`depositToYellow` lines 973–1001, `recoverCustodyFunds` lines 616–643)

Both sagas run the same `for (attempt = 0; attempt < 6; attempt++)` loop:
before every retry (attempt > 0) wait `attempt * 3000` ms, send the
resize message with `resize_amount = 0, allocate_amount = amount`, and on
a server error frame retry only when the error string contains
`resize already ongoing` and `attempt < 5`; any other error throws. -/

/-- A server reply to one RPC call: a success payload, or an error frame
carrying its `error` string. -/
inductive RpcResponse where
  | ok (payload : String)
  | err (errorMsg : String)
deriving Repr, DecidableEq

/-- Outcome of the allocate loop, with the trace of delays (in ms)
actually waited before retries. -/
inductive AllocOutcome where
  | success (payload : String) (delaysMs : List Nat)
  | failure (errorMsg : String) (delaysMs : List Nat)
deriving Repr, DecidableEq

/-- The transient-error test (lines 637, 995):
`allocServerError.includes('resize already ongoing')`. -/
def transientResizeError (e : String) : Bool :=
  strContains e "resize already ongoing"

/-- One unrolling of the allocate loop body. `fuel` is the remaining
iteration budget of the `attempt < 6` bound; the `fuel = 0` case is
unreachable from the entry point `fuel = 6, attempt = 0` because at
`attempt = 5` every branch exits the loop. `server n` is the reply to the
`n`-th allocate request. -/
def allocateGo (errPrefix : String) (server : Nat → RpcResponse) :
    Nat → Nat → List Nat → AllocOutcome
  | 0, _, delaysMs => AllocOutcome.failure errPrefix delaysMs
  | fuel + 1, attempt, delaysMs =>
    let delaysMs' :=
      if attempt > 0 then delaysMs ++ [attempt * 3000] else delaysMs
    match server attempt with
    | RpcResponse.ok payload => AllocOutcome.success payload delaysMs'
    | RpcResponse.err e =>
      if transientResizeError e && decide (attempt < 5) then
        allocateGo errPrefix server fuel (attempt + 1) delaysMs'
      else
        AllocOutcome.failure (errPrefix ++ e) delaysMs'

/-- The allocate phase of the deposit saga (lines 973–1001). -/
def depositAllocatePhase (server : Nat → RpcResponse) : AllocOutcome :=
  allocateGo "Allocate (channel→ledger) failed: " server 6 0 []

/-- The allocate phase of the recovery saga (lines 616–643). -/
def recoveryAllocatePhase (server : Nat → RpcResponse) : AllocOutcome :=
  allocateGo "Server rejected allocate: " server 6 0 []

/-- A server that always answers the transient error. -/
def alwaysOngoingServer : Nat → RpcResponse :=
  fun _ => RpcResponse.err "resize already ongoing"

/-- A server that rejects every attempt with a terminal error. -/
def terminalServer : Nat → RpcResponse :=
  fun _ => RpcResponse.err "insufficient funds"

/-- A server transient on attempts 0 and 1, terminal on attempt 2. -/
def mixedServer : Nat → RpcResponse :=
  fun n => if n < 2 then RpcResponse.err "resize already ongoing"
    else RpcResponse.err "insufficient funds"

/-! ## Saga actions

Observable actions of the deposit / recovery / withdraw flows: messages
sent to the server, wallet signatures, on-chain transactions, direct
custody withdrawals and state refreshes. `msgResize` records the
`channel_id`, `funds_destination`, `resize_amount` and (when the call
passes one) `allocate_amount` of the resize message. -/
inductive SagaAction where
  | getAccountBalance
  | getCode
  | msgCreateChannel
  | signChannelState
  | txCreateChannel
  | msgGetConfig
  | msgResize (channelId dest : String) (resizeAmount : Int)
      (allocateAmount : Option Int)
  | txResize
  | msgClose (channelId dest : String)
  | directWithdraw (amount : Int)
  | refreshState
deriving Repr, DecidableEq

/-- `!!walletCode && walletCode !== '0x'` (lines 467, 860): the wallet is
a contract-based (EIP-7702 smart) account iff `getCode` returned a
non-empty string other than `'0x'`. -/
def isSmartAccount (walletCode : Option String) : Bool :=
  match walletCode with
  | none => false
  | some code => !(code == "") && !(code == "0x")

/-- Reuse of an on-chain open channel (lines 495–504 / 805–813): the
first element of `getOpenChannels`, when the query succeeds and the list
is non-empty; a thrown query error is caught and treated as no channel. -/
def existingOpenChannel (r : Except String (List String)) : Option String :=
  match r with
  | Except.ok (c :: _) => some c
  | Except.ok [] => none
  | Except.error _ => none

/-- Number of allocate requests actually sent in an allocate-loop run
(one initial attempt plus one per recorded delay). -/
def allocAttempts : AllocOutcome → Nat
  | AllocOutcome.success _ delaysMs => delaysMs.length + 1
  | AllocOutcome.failure _ delaysMs => delaysMs.length + 1

/-! ## Recovery saga (`recoverCustodyFunds`, lines 415–694) -/

/-- The outside world as `recoverCustodyFunds` observes it: the custody
balance, the wallet bytecode, and the results of each fallible server /
wallet / chain interaction, in program order. `Except.error` models the
operation throwing. -/
structure RecoveryEnv where
  /-- `nitroliteClient.getAccountBalance` (line 453). -/
  custodyAmount : Int
  /-- `recoverPublicClient.getCode` (line 464); `none` = `undefined`. -/
  walletCode : Option String
  /-- `nitroliteClient.getOpenChannels` (line 496). -/
  openChannels : Except String (List String)
  /-- Server reply to `create_channel` (line 513); an error frame makes
  `parseCreateChannelResponse` throw. -/
  createResponse : RpcResponse
  /-- `signMessage` over the packed state (line 532). -/
  signState : Except String Unit
  /-- `getChannelId` of the proposed channel (line 527). -/
  localChannelId : String
  /-- simulate + `writeContract` + receipt of `create` (lines 536–559). -/
  createTx : Except String Unit
  /-- `get_config` round-trip: the broker address (lines 566–571). -/
  configResponse : Except String String
  /-- Server reply to resize step 1 (line 587). -/
  resize1Response : RpcResponse
  /-- On-chain `resizeChannel` of step 1 (lines 608–611). -/
  resize1Tx : Except String Unit
  /-- Server replies to the allocate attempts (lines 623–629). -/
  allocServer : Nat → RpcResponse
  /-- On-chain `resizeChannel` of step 2 (lines 656–659). -/
  allocTx : Except String Unit
  /-- `nitroliteClient.withdrawal` (lines 481–484 / 666–669). -/
  withdrawTx : Except String Unit

/-- Lines 494–562: reuse an existing open channel, else ask the server to
create one, co-sign the proposed state with the wallet key (EIP-191 over
the packed state) and submit the channel-opening transaction. Returns the
channel ID to use. -/
def recoveryEnsureChannel (env : RecoveryEnv) :
    List SagaAction × Except String String :=
  match existingOpenChannel env.openChannels with
  | some c => ([], Except.ok c)
  | none =>
    match env.createResponse with
    | RpcResponse.err e => ([SagaAction.msgCreateChannel], Except.error e)
    | RpcResponse.ok _ =>
      match env.signState with
      | Except.error e =>
        ([SagaAction.msgCreateChannel, SagaAction.signChannelState],
         Except.error e)
      | Except.ok _ =>
        match env.createTx with
        | Except.error e =>
          ([SagaAction.msgCreateChannel, SagaAction.signChannelState,
            SagaAction.txCreateChannel], Except.error e)
        | Except.ok _ =>
          ([SagaAction.msgCreateChannel, SagaAction.signChannelState,
            SagaAction.txCreateChannel], Except.ok env.localChannelId)

/-- The two-step resize sequence of the recovery saga — the body of the
inner `try` (lines 578–661): resize step 1 (custody → channel, server
request, error check, on-chain submit), then the allocate retry loop
(channel → ledger) and its on-chain submit. Any `Except.error` models the
`try` body throwing into the fallback `catch`. -/
def recoveryResizePhase (env : RecoveryEnv) (channelId broker : String) :
    List SagaAction × Except String Unit :=
  let step1 := [SagaAction.msgResize channelId broker env.custodyAmount
    (some 0)]
  match env.resize1Response with
  | RpcResponse.err e =>
    (step1, Except.error ("Server rejected resize step 1: " ++ e))
  | RpcResponse.ok _ =>
    match env.resize1Tx with
    | Except.error e => (step1 ++ [SagaAction.txResize], Except.error e)
    | Except.ok _ =>
      let outcome := recoveryAllocatePhase env.allocServer
      let allocMsgs := List.replicate (allocAttempts outcome)
        (SagaAction.msgResize channelId broker 0 (some env.custodyAmount))
      match outcome with
      | AllocOutcome.failure e _ =>
        (step1 ++ [SagaAction.txResize] ++ allocMsgs, Except.error e)
      | AllocOutcome.success _ _ =>
        match env.allocTx with
        | Except.error e =>
          (step1 ++ [SagaAction.txResize] ++ allocMsgs
            ++ [SagaAction.txResize], Except.error e)
        | Except.ok _ =>
          (step1 ++ [SagaAction.txResize] ++ allocMsgs
            ++ [SagaAction.txResize], Except.ok ())

/-- `recoverCustodyFunds` (lines 415–694) as an action trace plus result.
Zero custody is an early return; a contract-based (smart) account takes
the direct-withdrawal path; an externally-owned account ensures a
channel, fetches the broker address, runs the two-step resize, and on any
failure of that resize sequence falls back to a direct withdrawal of the
full custody amount. -/
def recoverCustodyFunds (env : RecoveryEnv) :
    List SagaAction × Except String Unit :=
  if env.custodyAmount ≤ 0 then
    ([SagaAction.getAccountBalance], Except.ok ())
  else
    let pre := [SagaAction.getAccountBalance, SagaAction.getCode]
    if isSmartAccount env.walletCode then
      match env.withdrawTx with
      | Except.ok _ =>
        (pre ++ [SagaAction.directWithdraw env.custodyAmount,
          SagaAction.refreshState], Except.ok ())
      | Except.error e =>
        (pre ++ [SagaAction.directWithdraw env.custodyAmount],
         Except.error e)
    else
      let ensureActs := (recoveryEnsureChannel env).1
      match (recoveryEnsureChannel env).2 with
      | Except.error e => (pre ++ ensureActs, Except.error e)
      | Except.ok channelId =>
        match env.configResponse with
        | Except.error e =>
          (pre ++ ensureActs ++ [SagaAction.msgGetConfig], Except.error e)
        | Except.ok broker =>
          let resizeActs := (recoveryResizePhase env channelId broker).1
          match (recoveryResizePhase env channelId broker).2 with
          | Except.ok _ =>
            (pre ++ ensureActs ++ [SagaAction.msgGetConfig] ++ resizeActs
              ++ [SagaAction.refreshState], Except.ok ())
          | Except.error _ =>
            match env.withdrawTx with
            | Except.ok _ =>
              (pre ++ ensureActs ++ [SagaAction.msgGetConfig] ++ resizeActs
                ++ [SagaAction.directWithdraw env.custodyAmount,
                    SagaAction.refreshState], Except.ok ())
            | Except.error e =>
              (pre ++ ensureActs ++ [SagaAction.msgGetConfig] ++ resizeActs
                ++ [SagaAction.directWithdraw env.custodyAmount],
               Except.error e)

/-- A concrete smart-account recovery environment: 5 units in custody,
EIP-7702 delegation bytecode at the wallet address. -/
def smartRecoveryEnv : RecoveryEnv :=
  { custodyAmount := 5
    walletCode := some "0xef0100aabb"
    openChannels := Except.ok []
    createResponse := RpcResponse.ok "create"
    signState := Except.ok ()
    localChannelId := "0xchan"
    createTx := Except.ok ()
    configResponse := Except.ok "0xbroker"
    resize1Response := RpcResponse.ok "resize"
    resize1Tx := Except.ok ()
    allocServer := fun _ => RpcResponse.ok "alloc"
    allocTx := Except.ok ()
    withdrawTx := Except.ok () }

/-- A concrete externally-owned-wallet recovery environment: an existing
channel is reused and the server rejects resize step 1. -/
def eoaRecoveryEnv : RecoveryEnv :=
  { custodyAmount := 5
    walletCode := none
    openChannels := Except.ok ["0xchan"]
    createResponse := RpcResponse.ok "create"
    signState := Except.ok ()
    localChannelId := "0xlocal"
    createTx := Except.ok ()
    configResponse := Except.ok "0xbroker"
    resize1Response := RpcResponse.err "boom"
    resize1Tx := Except.ok ()
    allocServer := fun _ => RpcResponse.ok "alloc"
    allocTx := Except.ok ()
    withdrawTx := Except.ok () }

/-! ## Deposit saga, ensure-channel step (`depositToYellow`, lines 801–904) -/

/-- `[a-fA-F0-9]` of the channel-extraction pattern (line 832). -/
def isHexDigit (c : Char) : Bool :=
  (('0' ≤ c) && (c ≤ '9')) || (('a' ≤ c) && (c ≤ 'f'))
    || (('A' ≤ c) && (c ≤ 'F'))

/-- Try the pattern `already exists:\s*(0x[a-fA-F0-9]+)` anchored at the
head of `s`, returning the captured channel ID. (`\s` is approximated by
`Char.isWhitespace`.) -/
def matchExistingAt (s : List Char) : Option (List Char) :=
  if "already exists:".toList.isPrefixOf s then
    let rest := (s.drop "already exists:".toList.length).dropWhile
      Char.isWhitespace
    match rest with
    | '0' :: 'x' :: hs =>
      let run := hs.takeWhile isHexDigit
      if run.isEmpty then none else some ('0' :: 'x' :: run)
    | _ => none
  else none

/-- First match of `already exists:\s*(0x[a-fA-F0-9]+)` in the server
error string (line 832), scanning left to right as `String.match` does. -/
def extractExistingChannel : List Char → Option (List Char)
  | [] => none
  | c :: rest =>
    match matchExistingAt (c :: rest) with
    | some r => some r
    | none => extractExistingChannel rest

/-- The descriptive error thrown when channel creation would require a
raw signature from a contract-based wallet (lines 861–865). -/
def UNSUPPORTED_WALLET_MESSAGE : String :=
  "Your wallet has an EIP-7702 smart account delegation that prevents channel creation. To deposit, please disable the smart account in MetaMask settings. Your existing funds can be recovered using the Recover button above."

/-- The outside world as the ensure-channel step of `depositToYellow`
observes it. -/
structure DepositEnv where
  /-- `nitroliteClient.getOpenChannels` (line 806). -/
  openChannels : Except String (List String)
  /-- Server reply to `create_channel` (line 822). -/
  createResponse : RpcResponse
  /-- `depositPublicClient.getCode` at the wallet (lines 857–859). -/
  walletCode : Option String
  /-- `signMessage` over the packed state (lines 870–872). -/
  signState : Except String Unit
  /-- `getChannelId` of the proposed channel (line 853). -/
  localChannelId : String
  /-- simulate + `writeContract` + receipt of `create` (lines 877–900). -/
  createTx : Except String Unit

/-- `depositToYellow` step 1 (lines 801–904): reuse an existing open
channel; otherwise request creation from the server. A server error frame
naming an already-existing channel yields that channel; any other server
error is terminal. On a fresh proposal the wallet bytecode is probed
first: a contract-based account fails fast with
`UNSUPPORTED_WALLET_MESSAGE` before the wallet signature over the channel
state is attempted; an EOA signs and submits the creation on-chain. -/
def depositEnsureChannel (env : DepositEnv) :
    List SagaAction × Except String String :=
  match existingOpenChannel env.openChannels with
  | some c => ([], Except.ok c)
  | none =>
    match env.createResponse with
    | RpcResponse.err e =>
      match extractExistingChannel e.toList with
      | some cid =>
        ([SagaAction.msgCreateChannel], Except.ok (String.mk cid))
      | none =>
        ([SagaAction.msgCreateChannel],
         Except.error ("Channel creation failed: " ++ e))
    | RpcResponse.ok _ =>
      if isSmartAccount env.walletCode then
        ([SagaAction.msgCreateChannel, SagaAction.getCode],
         Except.error UNSUPPORTED_WALLET_MESSAGE)
      else
        match env.signState with
        | Except.error e =>
          ([SagaAction.msgCreateChannel, SagaAction.getCode,
            SagaAction.signChannelState], Except.error e)
        | Except.ok _ =>
          match env.createTx with
          | Except.error e =>
            ([SagaAction.msgCreateChannel, SagaAction.getCode,
              SagaAction.signChannelState, SagaAction.txCreateChannel],
             Except.error e)
          | Except.ok _ =>
            ([SagaAction.msgCreateChannel, SagaAction.getCode,
              SagaAction.signChannelState, SagaAction.txCreateChannel],
             Except.ok env.localChannelId)

/-- A concrete deposit environment: no existing channel, server proposes
a fresh channel, and the wallet address carries delegation bytecode. -/
def smartDepositEnv : DepositEnv :=
  { openChannels := Except.ok []
    createResponse := RpcResponse.ok "proposal"
    walletCode := some "0xef0100aabb"
    signState := Except.ok ()
    localChannelId := "0xlocal"
    createTx := Except.ok () }

/-! ## Channel withdrawal (`withdrawFromChannel`, lines 699–753) -/

/-- The server replies `withdrawFromChannel` can observe. -/
structure WithdrawEnv where
  /-- Reply to the resize message (line 720). -/
  resizeResponse : RpcResponse
  /-- Reply to the close message (line 735). -/
  closeResponse : RpcResponse

/-- `withdrawFromChannel` (lines 699–753): a specified amount sends a
resize message with that amount (`resize_amount = amount`, no
`allocate_amount`); an omitted amount sends a close-channel message. A
server error frame throws (`error` string, with a per-path default for an
empty one); on success balances and channels are refreshed. -/
def withdrawFromChannel (env : WithdrawEnv) (channelId dest : String)
    (amount : Option Int) : List SagaAction × Except String Unit :=
  match amount with
  | some a =>
    match env.resizeResponse with
    | RpcResponse.err e =>
      ([SagaAction.msgResize channelId dest a none],
       Except.error (if e = "" then "Resize failed" else e))
    | RpcResponse.ok _ =>
      ([SagaAction.msgResize channelId dest a none, SagaAction.refreshState],
       Except.ok ())
  | none =>
    match env.closeResponse with
    | RpcResponse.err e =>
      ([SagaAction.msgClose channelId dest],
       Except.error (if e = "" then "Channel close failed" else e))
    | RpcResponse.ok _ =>
      ([SagaAction.msgClose channelId dest, SagaAction.refreshState],
       Except.ok ())

/-! ## Waiter lifecycle under `disconnect` (lines 1118–1123) -/

/-- Settlement state of one `sendMessage` promise. -/
inductive WaiterState where
  | pending
  | resolved (f : Frame)
  | rejectedTimeout
  | rejectedClosed
deriving Repr, DecidableEq

/-- Events that can reach a registered waiter: an incoming frame, its own
30 s timer, or `disconnect` being called. -/
inductive TransportEvent where
  | frameArrived (f : Frame)
  | timeoutFired
  | disconnectCalled
deriving Repr, DecidableEq

/-- How the promise of one `sendMessage` call (with extracted request ID
`rid`) reacts to an event. `sendMessage` registers exactly one `message`
listener (lines 134–162) and one 30 s timer that rejects with
`Request timeout` (lines 166–169). `disconnect` (lines 1118–1123) calls
`ws.close()`, nulls `wsRef` and `signerRef` and resets the React state;
it settles no promise, so `disconnectCalled` leaves a pending waiter
pending. A settled promise stays settled. -/
def waiterStep (rid : Option Int) (st : WaiterState) (ev : TransportEvent) :
    WaiterState :=
  match st with
  | WaiterState.pending =>
    match ev with
    | TransportEvent.frameArrived f =>
      if frameAccepted rid f then WaiterState.resolved f else WaiterState.pending
    | TransportEvent.timeoutFired => WaiterState.rejectedTimeout
    | TransportEvent.disconnectCalled => WaiterState.pending
  | st => st

/-- The settlement state of a waiter after a sequence of events. -/
def waiterRun (rid : Option Int) (evs : List TransportEvent) : WaiterState :=
  evs.foldl (waiterStep rid) WaiterState.pending

/-! ## Theorems -/

theorem frameAccepted_some_iff (rid : Int) (f : Frame) :
    frameAccepted (some rid) f = true ↔ frameResponseId f = some rid := by
  unfold frameAccepted frameResponseId
  cases h : f.resField with
  | none => simp
  | some res =>
    cases hh : res.head? with
    | none => simp [hh]
    | some responseId =>
      simp only [hh, Option.some_bind, Option.some.injEq, beq_iff_eq]

theorem frameAccepted_none_eq (f : Frame) :
    frameAccepted none f = f.resField.isSome := by
  unfold frameAccepted
  cases f.resField <;> rfl

/-- **C1.** When the outgoing message yields an extractable request ID, a
`sendMessage` call either resolves with a frame whose embedded response ID
(`res[0]`) equals the sent request ID, or rejects on timeout; it never
resolves with a mismatched ID, and frames without a structured `res` array
(heartbeats, push events) never resolve the waiter. -/
theorem sendMessage_correlates_by_id (m : OutMessage) (rid : Int)
    (frames : List Frame) (h : extractRequestId m = some rid) :
    (∀ f, sendMessageResult (some rid) frames = some f →
      frameResponseId f = some rid)
    ∧ ((∀ f ∈ frames, f.resField = none) →
      sendMessageResult (some rid) frames = none) := by
  constructor
  · intro f hf
    have := List.find?_some hf
    exact (frameAccepted_some_iff rid f).mp this
  · intro hall
    apply List.find?_eq_none.mpr
    intro f hf
    have : frameAccepted (some rid) f = false := by
      unfold frameAccepted
      rw [hall f hf]
    simp [this]

/-- Witness for C1 at a concrete input: request ID 7, a heartbeat frame
followed by the matching response. -/
theorem sendMessage_correlates_by_id_witness :
    extractRequestId ⟨some [7, 2, 3]⟩ = some 7 ∧
    ((∀ f, sendMessageResult (some 7)
        [Frame.mk "hb" none, Frame.mk "resp" (some [7])] = some f →
      frameResponseId f = some 7)
    ∧ ((∀ f ∈ [Frame.mk "hb" none, Frame.mk "resp" (some [7])],
        f.resField = none) →
      sendMessageResult (some 7)
        [Frame.mk "hb" none, Frame.mk "resp" (some [7])] = none)) :=
  ⟨by decide,
   sendMessage_correlates_by_id ⟨some [7, 2, 3]⟩ 7
     [Frame.mk "hb" none, Frame.mk "resp" (some [7])] (by decide)⟩

/-- **C10.** When no request ID can be extracted from the outgoing message
(JSON parse failure, or no non-empty `req` array), the waiter resolves
with the first incoming frame that has a structured `res` array, whatever
its embedded ID: correlation by ID is not enforced for such inputs. -/
theorem sendMessage_no_id_accepts_any_response (m : OutMessage)
    (frames : List Frame) (h : extractRequestId m = none) :
    sendMessageResult (extractRequestId m) frames =
      frames.find? (fun f => f.resField.isSome) := by
  rw [h]
  unfold sendMessageResult
  congr 1
  funext f
  exact frameAccepted_none_eq f

/-- Witness for C10: an unparseable outgoing message, answered by a frame
carrying a different ID (99), which nevertheless resolves the waiter. -/
theorem sendMessage_no_id_accepts_any_response_witness :
    extractRequestId ⟨none⟩ = none ∧
    sendMessageResult (extractRequestId ⟨none⟩)
        [Frame.mk "hb" none, Frame.mk "push" (some [99])] =
      [Frame.mk "hb" none, Frame.mk "push" (some [99])].find?
        (fun f => f.resField.isSome) :=
  ⟨rfl,
   sendMessage_no_id_accepts_any_response ⟨none⟩
     [Frame.mk "hb" none, Frame.mk "push" (some [99])] rfl⟩

theorem containsSub_of_isPrefixOf (pat s : List Char)
    (h : pat.isPrefixOf s = true) : containsSub pat s = true := by
  cases s with
  | nil =>
    cases pat with
    | nil => rfl
    | cons c cs => simp [List.isPrefixOf] at h
  | cons c rest => simp [containsSub, h]

theorem containsSub_append_left (pat a b : List Char)
    (h : pat.isPrefixOf a = true) : containsSub pat (a ++ b) = true := by
  apply containsSub_of_isPrefixOf
  rw [List.isPrefixOf_iff_prefix] at h ⊢
  exact h.trans (List.prefix_append a b)

/-- **C5.** The EIP-712 domain name used to sign the challenge
verification equals, character for character, the application identifier
sent in the auth request (both the constant `"yellowpay"`), and the
`session_key`, `expires_at`, `allowances` and `scope` fields signed in
the verification equal those sent in the auth request. -/
theorem connect_auth_domain_matches_application (envEndpoint : Option String)
    (address sessionKeyAddress : String) (expiresAt : Int) :
    (connectAuthHandshake envEndpoint address sessionKeyAddress
        expiresAt).eip712Domain.name =
      (connectAuthHandshake envEndpoint address sessionKeyAddress
        expiresAt).request.application
    ∧ (connectAuthHandshake envEndpoint address sessionKeyAddress
        expiresAt).request.application = "yellowpay"
    ∧ (connectAuthHandshake envEndpoint address sessionKeyAddress
        expiresAt).eip712Domain.name = APPLICATION_NAME
    ∧ (connectAuthHandshake envEndpoint address sessionKeyAddress
        expiresAt).partialMessage.session_key =
      (connectAuthHandshake envEndpoint address sessionKeyAddress
        expiresAt).request.session_key
    ∧ (connectAuthHandshake envEndpoint address sessionKeyAddress
        expiresAt).partialMessage.expires_at =
      (connectAuthHandshake envEndpoint address sessionKeyAddress
        expiresAt).request.expires_at
    ∧ (connectAuthHandshake envEndpoint address sessionKeyAddress
        expiresAt).partialMessage.allowances =
      (connectAuthHandshake envEndpoint address sessionKeyAddress
        expiresAt).request.allowances
    ∧ (connectAuthHandshake envEndpoint address sessionKeyAddress
        expiresAt).partialMessage.scope =
      (connectAuthHandshake envEndpoint address sessionKeyAddress
        expiresAt).request.scope :=
  ⟨rfl, rfl, rfl, rfl, rfl, rfl, rfl⟩

theorem strContains_authErrorMessage (serverError : String) :
    strContains (authErrorMessage serverError) "Authentication error" = true := by
  unfold strContains authErrorMessage
  rw [show ∀ t, ("Authentication error: " ++ t).toList
        = "Authentication error: ".toList ++ t.toList from fun t => by
      simp [String.toList, String.data_append]]
  exact containsSub_append_left _ _ _ (by decide)

/-- **C7 counterexample.** A server error frame whose error string is
`"session timeout"` is surfaced as the generic connectivity message
`"Connection timed out. Please try again."`, not verbatim inside
`Authentication error: ...` — the server-error category is conflated with
the transport-level one. -/
theorem connect_error_reporting_counterexample :
    connectUserMessage (authErrorMessage "session timeout") =
      "Connection timed out. Please try again."
    ∧ connectUserMessage (authErrorMessage "session timeout") ≠
      authErrorMessage "session timeout" := by
  constructor
  · decide
  · decide

/-- **C7 amended.** Transport-level failures (`WebSocket connection
failed`, `Request timeout`) are surfaced as generic connectivity
messages; a server error frame is surfaced verbatim inside
`Authentication error: ...` provided the resulting message contains none
of the transport keywords `WebSocket`, `timeout`, `rejected`, `denied` —
if it does contain one, the corresponding generic message wins instead. -/
theorem connect_error_reporting_amended (serverError : String)
    (h1 : strContains (authErrorMessage serverError) "WebSocket" = false)
    (h2 : strContains (authErrorMessage serverError) "timeout" = false)
    (h3 : strContains (authErrorMessage serverError) "rejected" = false)
    (h4 : strContains (authErrorMessage serverError) "denied" = false) :
    connectUserMessage (authErrorMessage serverError) =
      authErrorMessage serverError
    ∧ connectUserMessage "WebSocket connection failed" =
      "Network connection failed. Please check your internet and try again."
    ∧ connectUserMessage "Request timeout" =
      "Connection timed out. Please try again." := by
  refine ⟨?_, by decide, by decide⟩
  unfold connectUserMessage
  rw [h1, h2, h3, h4, strContains_authErrorMessage]
  rfl

/-- Witness for the amended C7 at the server error `"invalid signature"`. -/
theorem connect_error_reporting_amended_witness :
    (strContains (authErrorMessage "invalid signature") "WebSocket" = false
    ∧ strContains (authErrorMessage "invalid signature") "timeout" = false
    ∧ strContains (authErrorMessage "invalid signature") "rejected" = false
    ∧ strContains (authErrorMessage "invalid signature") "denied" = false)
    ∧ (connectUserMessage (authErrorMessage "invalid signature") =
      authErrorMessage "invalid signature"
    ∧ connectUserMessage "WebSocket connection failed" =
      "Network connection failed. Please check your internet and try again."
    ∧ connectUserMessage "Request timeout" =
      "Connection timed out. Please try again.") :=
  ⟨⟨by decide, by decide, by decide, by decide⟩,
   connect_error_reporting_amended "invalid signature"
     (by decide) (by decide) (by decide) (by decide)⟩

/-- **C2.** In the allocate-to-ledger phase, when the server keeps
answering with the transient `resize already ongoing` error the operation
is retried exactly 5 times after the initial attempt, with successive
delays of 3 s, 6 s, 9 s, 12 s, 15 s, and the 6th failed attempt raises
the error; any other server error aborts immediately without further
retries — whether on the very first attempt (no delay at all) or
mid-loop (after the delays already spent). Both the deposit saga's loop
and the recovery saga's loop behave this way. -/
theorem allocate_retry_schedule (e e' : String)
    (server server' server'' : Nat → RpcResponse)
    (hs : ∀ n, server n = RpcResponse.err e)
    (he : transientResizeError e = true)
    (hs' : server' 0 = RpcResponse.err e')
    (he' : transientResizeError e' = false)
    (ht0 : server'' 0 = RpcResponse.err e)
    (ht1 : server'' 1 = RpcResponse.err e)
    (ht2 : server'' 2 = RpcResponse.err e') :
    depositAllocatePhase server =
      AllocOutcome.failure ("Allocate (channel→ledger) failed: " ++ e)
        [3000, 6000, 9000, 12000, 15000]
    ∧ recoveryAllocatePhase server =
      AllocOutcome.failure ("Server rejected allocate: " ++ e)
        [3000, 6000, 9000, 12000, 15000]
    ∧ depositAllocatePhase server' =
      AllocOutcome.failure ("Allocate (channel→ledger) failed: " ++ e') []
    ∧ recoveryAllocatePhase server' =
      AllocOutcome.failure ("Server rejected allocate: " ++ e') []
    ∧ depositAllocatePhase server'' =
      AllocOutcome.failure ("Allocate (channel→ledger) failed: " ++ e')
        [3000, 6000] := by
  refine ⟨?_, ?_, ?_, ?_, ?_⟩ <;>
    simp [depositAllocatePhase, recoveryAllocatePhase, allocateGo,
      hs, he, hs', he', ht0, ht1, ht2]

/-- Witness for C2: a server that always answers
`resize already ongoing`, one that rejects the first attempt with
`insufficient funds`, and one that turns terminal on the third
attempt. -/
theorem allocate_retry_schedule_witness :
    ((∀ n : Nat, alwaysOngoingServer n
        = RpcResponse.err "resize already ongoing")
    ∧ transientResizeError "resize already ongoing" = true
    ∧ terminalServer 0 = RpcResponse.err "insufficient funds"
    ∧ transientResizeError "insufficient funds" = false
    ∧ mixedServer 0 = RpcResponse.err "resize already ongoing"
    ∧ mixedServer 1 = RpcResponse.err "resize already ongoing"
    ∧ mixedServer 2 = RpcResponse.err "insufficient funds")
    ∧ (depositAllocatePhase alwaysOngoingServer =
      AllocOutcome.failure
        ("Allocate (channel→ledger) failed: " ++ "resize already ongoing")
        [3000, 6000, 9000, 12000, 15000]
    ∧ recoveryAllocatePhase alwaysOngoingServer =
      AllocOutcome.failure
        ("Server rejected allocate: " ++ "resize already ongoing")
        [3000, 6000, 9000, 12000, 15000]
    ∧ depositAllocatePhase terminalServer =
      AllocOutcome.failure
        ("Allocate (channel→ledger) failed: " ++ "insufficient funds") []
    ∧ recoveryAllocatePhase terminalServer =
      AllocOutcome.failure
        ("Server rejected allocate: " ++ "insufficient funds") []
    ∧ depositAllocatePhase mixedServer =
      AllocOutcome.failure
        ("Allocate (channel→ledger) failed: " ++ "insufficient funds")
        [3000, 6000]) :=
  ⟨⟨fun _ => rfl, by decide, rfl, by decide, rfl, rfl, rfl⟩,
   allocate_retry_schedule "resize already ongoing" "insufficient funds"
     alwaysOngoingServer terminalServer mixedServer
     (fun _ => rfl) (by decide) rfl (by decide) rfl rfl rfl⟩

/-- **C3.** On a contract-based wallet (on-chain code present at the
wallet address) with positive custody balance, `recoverCustodyFunds`
completes by a direct custody withdrawal of the full custody amount and
returns: its trace is exactly balance check, code check, withdrawal,
refresh — it never sends a channel-creation or resize message and never
cosigns a channel state. -/
theorem recovery_smart_account_direct_withdrawal (env : RecoveryEnv)
    (hpos : 0 < env.custodyAmount)
    (hsmart : isSmartAccount env.walletCode = true)
    (hw : env.withdrawTx = Except.ok ()) :
    (recoverCustodyFunds env).1 =
      [SagaAction.getAccountBalance, SagaAction.getCode,
       SagaAction.directWithdraw env.custodyAmount, SagaAction.refreshState]
    ∧ (recoverCustodyFunds env).2 = Except.ok ()
    ∧ (∀ ch d r al, SagaAction.msgResize ch d r al ∉ (recoverCustodyFunds env).1)
    ∧ SagaAction.msgCreateChannel ∉ (recoverCustodyFunds env).1
    ∧ SagaAction.signChannelState ∉ (recoverCustodyFunds env).1 := by
  have hne : ¬ env.custodyAmount ≤ 0 := by omega
  refine ⟨?_, ?_, ?_, ?_, ?_⟩ <;>
    simp [recoverCustodyFunds, hne, hsmart, hw]

/-- Witness for C3: smart-account environment with 5 units in custody. -/
theorem recovery_smart_account_direct_withdrawal_witness :
    (0 : Int) < smartRecoveryEnv.custodyAmount
    ∧ isSmartAccount smartRecoveryEnv.walletCode = true
    ∧ smartRecoveryEnv.withdrawTx = Except.ok ()
    ∧ ((recoverCustodyFunds smartRecoveryEnv).1 =
      [SagaAction.getAccountBalance, SagaAction.getCode,
       SagaAction.directWithdraw smartRecoveryEnv.custodyAmount,
       SagaAction.refreshState]
    ∧ (recoverCustodyFunds smartRecoveryEnv).2 = Except.ok ()
    ∧ (∀ ch d r al,
        SagaAction.msgResize ch d r al ∉ (recoverCustodyFunds smartRecoveryEnv).1)
    ∧ SagaAction.msgCreateChannel ∉ (recoverCustodyFunds smartRecoveryEnv).1
    ∧ SagaAction.signChannelState ∉ (recoverCustodyFunds smartRecoveryEnv).1) :=
  ⟨by decide, by decide, rfl,
   recovery_smart_account_direct_withdrawal smartRecoveryEnv
     (by decide) (by decide) rfl⟩

/-- **C4.** On an externally-owned wallet with positive custody balance,
whenever the two-step resize sequence fails — whichever of its steps
threw — `recoverCustodyFunds` falls back to the direct custody withdrawal
of the full custody amount: the withdrawal attempt is always in the
trace. -/
theorem recovery_resize_failure_falls_back_to_withdrawal
    (env : RecoveryEnv) (channelId broker : String)
    (hpos : 0 < env.custodyAmount)
    (heoa : isSmartAccount env.walletCode = false)
    (hchan : (recoveryEnsureChannel env).2 = Except.ok channelId)
    (hconf : env.configResponse = Except.ok broker)
    (hfail : ∃ e, (recoveryResizePhase env channelId broker).2 =
      Except.error e) :
    SagaAction.directWithdraw env.custodyAmount ∈ (recoverCustodyFunds env).1 := by
  obtain ⟨e, he⟩ := hfail
  have hne : ¬ env.custodyAmount ≤ 0 := by omega
  cases hw : env.withdrawTx <;>
    simp [recoverCustodyFunds, hne, heoa, hchan, hconf, he, hw]

/-- Witness for C4: an EOA environment reusing an existing channel whose
resize step 1 is rejected by the server. -/
theorem recovery_resize_failure_falls_back_to_withdrawal_witness :
    (0 : Int) < eoaRecoveryEnv.custodyAmount
    ∧ isSmartAccount eoaRecoveryEnv.walletCode = false
    ∧ (recoveryEnsureChannel eoaRecoveryEnv).2 = Except.ok "0xchan"
    ∧ eoaRecoveryEnv.configResponse = Except.ok "0xbroker"
    ∧ (∃ e, (recoveryResizePhase eoaRecoveryEnv "0xchan" "0xbroker").2 =
      Except.error e)
    ∧ SagaAction.directWithdraw eoaRecoveryEnv.custodyAmount ∈
      (recoverCustodyFunds eoaRecoveryEnv).1 :=
  ⟨by decide, by decide, rfl, rfl,
   ⟨"Server rejected resize step 1: " ++ "boom", rfl⟩,
   recovery_resize_failure_falls_back_to_withdrawal eoaRecoveryEnv
     "0xchan" "0xbroker" (by decide) (by decide) rfl rfl
     ⟨"Server rejected resize step 1: " ++ "boom", rfl⟩⟩

/-- **C8.** In the deposit saga's ensure-channel step, when a new channel
must be created (no reusable open channel) and the wallet is a
contract-based account, the step fails fast with the descriptive
unsupported-wallet error, before any wallet signature over the channel
state (and before the on-chain creation) is attempted. -/
theorem deposit_ensure_channel_unsupported_wallet (env : DepositEnv)
    (p : String)
    (hnochan : existingOpenChannel env.openChannels = none)
    (hcreate : env.createResponse = RpcResponse.ok p)
    (hsmart : isSmartAccount env.walletCode = true) :
    (depositEnsureChannel env).2 = Except.error UNSUPPORTED_WALLET_MESSAGE
    ∧ SagaAction.signChannelState ∉ (depositEnsureChannel env).1
    ∧ SagaAction.txCreateChannel ∉ (depositEnsureChannel env).1 := by
  refine ⟨?_, ?_, ?_⟩ <;>
    simp [depositEnsureChannel, hnochan, hcreate, hsmart]

/-- Witness for C8. -/
theorem deposit_ensure_channel_unsupported_wallet_witness :
    existingOpenChannel smartDepositEnv.openChannels = none
    ∧ smartDepositEnv.createResponse = RpcResponse.ok "proposal"
    ∧ isSmartAccount smartDepositEnv.walletCode = true
    ∧ ((depositEnsureChannel smartDepositEnv).2 =
      Except.error UNSUPPORTED_WALLET_MESSAGE
    ∧ SagaAction.signChannelState ∉ (depositEnsureChannel smartDepositEnv).1
    ∧ SagaAction.txCreateChannel ∉ (depositEnsureChannel smartDepositEnv).1) :=
  ⟨rfl, rfl, by decide,
   deposit_ensure_channel_unsupported_wallet smartDepositEnv "proposal"
     rfl rfl (by decide)⟩

/-- **C9.** With the amount omitted, `withdrawFromChannel` sends a
close-channel message (and no resize message); with an amount specified
it sends a resize message carrying that amount (and no close message).
On a success reply the trace ends with the balances-and-channels refresh
and the call returns; on a server error frame the call throws the
server's error string. -/
theorem withdrawFromChannel_close_or_resize
    (envOk envErr : WithdrawEnv) (channelId dest : String) (a : Int)
    (pc pr ec er : String)
    (h1 : envOk.closeResponse = RpcResponse.ok pc)
    (h2 : envOk.resizeResponse = RpcResponse.ok pr)
    (h3 : envErr.closeResponse = RpcResponse.err ec)
    (h4 : envErr.resizeResponse = RpcResponse.err er) :
    ((withdrawFromChannel envOk channelId dest none).1 =
      [SagaAction.msgClose channelId dest, SagaAction.refreshState]
    ∧ (withdrawFromChannel envOk channelId dest none).2 = Except.ok ())
    ∧ ((withdrawFromChannel envOk channelId dest (some a)).1 =
      [SagaAction.msgResize channelId dest a none, SagaAction.refreshState]
    ∧ (withdrawFromChannel envOk channelId dest (some a)).2 = Except.ok ())
    ∧ ((withdrawFromChannel envErr channelId dest none).1 =
      [SagaAction.msgClose channelId dest]
    ∧ (withdrawFromChannel envErr channelId dest none).2 =
      Except.error (if ec = "" then "Channel close failed" else ec))
    ∧ ((withdrawFromChannel envErr channelId dest (some a)).1 =
      [SagaAction.msgResize channelId dest a none]
    ∧ (withdrawFromChannel envErr channelId dest (some a)).2 =
      Except.error (if er = "" then "Resize failed" else er)) := by
  refine ⟨⟨?_, ?_⟩, ⟨?_, ?_⟩, ⟨?_, ?_⟩, ⟨?_, ?_⟩⟩ <;>
    simp [withdrawFromChannel, h1, h2, h3, h4]

/-- Witness for C9: success replies on one environment, error replies
(`no channel` / `bad resize`) on the other. -/
theorem withdrawFromChannel_close_or_resize_witness :
    ((WithdrawEnv.mk (RpcResponse.ok "r") (RpcResponse.ok "c")).closeResponse
      = RpcResponse.ok "c"
    ∧ (WithdrawEnv.mk (RpcResponse.ok "r") (RpcResponse.ok "c")).resizeResponse
      = RpcResponse.ok "r"
    ∧ (WithdrawEnv.mk (RpcResponse.err "bad resize")
        (RpcResponse.err "no channel")).closeResponse
      = RpcResponse.err "no channel"
    ∧ (WithdrawEnv.mk (RpcResponse.err "bad resize")
        (RpcResponse.err "no channel")).resizeResponse
      = RpcResponse.err "bad resize")
    ∧ (((withdrawFromChannel
        (WithdrawEnv.mk (RpcResponse.ok "r") (RpcResponse.ok "c"))
        "0xch" "0xdest" none).1 =
      [SagaAction.msgClose "0xch" "0xdest", SagaAction.refreshState]
    ∧ (withdrawFromChannel
        (WithdrawEnv.mk (RpcResponse.ok "r") (RpcResponse.ok "c"))
        "0xch" "0xdest" none).2 = Except.ok ())
    ∧ ((withdrawFromChannel
        (WithdrawEnv.mk (RpcResponse.ok "r") (RpcResponse.ok "c"))
        "0xch" "0xdest" (some 5)).1 =
      [SagaAction.msgResize "0xch" "0xdest" 5 none, SagaAction.refreshState]
    ∧ (withdrawFromChannel
        (WithdrawEnv.mk (RpcResponse.ok "r") (RpcResponse.ok "c"))
        "0xch" "0xdest" (some 5)).2 = Except.ok ())
    ∧ ((withdrawFromChannel
        (WithdrawEnv.mk (RpcResponse.err "bad resize")
          (RpcResponse.err "no channel")) "0xch" "0xdest" none).1 =
      [SagaAction.msgClose "0xch" "0xdest"]
    ∧ (withdrawFromChannel
        (WithdrawEnv.mk (RpcResponse.err "bad resize")
          (RpcResponse.err "no channel")) "0xch" "0xdest" none).2 =
      Except.error
        (if "no channel" = "" then "Channel close failed" else "no channel"))
    ∧ ((withdrawFromChannel
        (WithdrawEnv.mk (RpcResponse.err "bad resize")
          (RpcResponse.err "no channel")) "0xch" "0xdest" (some 5)).1 =
      [SagaAction.msgResize "0xch" "0xdest" 5 none]
    ∧ (withdrawFromChannel
        (WithdrawEnv.mk (RpcResponse.err "bad resize")
          (RpcResponse.err "no channel")) "0xch" "0xdest" (some 5)).2 =
      Except.error
        (if "bad resize" = "" then "Resize failed" else "bad resize"))) :=
  ⟨⟨rfl, rfl, rfl, rfl⟩,
   withdrawFromChannel_close_or_resize
     (WithdrawEnv.mk (RpcResponse.ok "r") (RpcResponse.ok "c"))
     (WithdrawEnv.mk (RpcResponse.err "bad resize")
       (RpcResponse.err "no channel"))
     "0xch" "0xdest" 5 "c" "r" "no channel" "bad resize" rfl rfl rfl rfl⟩

/-- **C6 counterexample.** A pending waiter is *not* rejected with a
`ClosedError` when `disconnect` runs: after `disconnectCalled` it is
still pending, and it only settles when its own 30-second timeout fires
(with the timeout rejection, not a close rejection). -/
theorem disconnect_closed_error_counterexample :
    waiterRun (some 7) [TransportEvent.disconnectCalled] = WaiterState.pending
    ∧ waiterRun (some 7) [TransportEvent.disconnectCalled] ≠
      WaiterState.rejectedClosed
    ∧ waiterRun (some 7)
        [TransportEvent.disconnectCalled, TransportEvent.timeoutFired] =
      WaiterState.rejectedTimeout := by
  refine ⟨rfl, by decide, rfl⟩

theorem waiterStep_ne_rejectedClosed (rid : Option Int) (st : WaiterState)
    (ev : TransportEvent) (h : st ≠ WaiterState.rejectedClosed) :
    waiterStep rid st ev ≠ WaiterState.rejectedClosed := by
  cases st with
  | pending =>
    cases ev with
    | frameArrived f =>
      by_cases hf : frameAccepted rid f = true <;>
        simp [waiterStep, hf]
    | timeoutFired => simp [waiterStep]
    | disconnectCalled => simp [waiterStep]
  | resolved f => simpa [waiterStep] using h
  | rejectedTimeout => simp [waiterStep]
  | rejectedClosed => exact absurd rfl h

/-- **C6 amended.** `disconnect` leaves every still-pending waiter
untouched — it never settles a promise, so no event sequence ever
rejects a waiter with a `ClosedError`; a waiter pending at disconnect
expires on its own 30-second timeout. -/
theorem disconnect_leaves_waiters_pending (rid : Option Int)
    (st : WaiterState) (evs : List TransportEvent) :
    waiterStep rid st TransportEvent.disconnectCalled = st
    ∧ waiterRun rid evs ≠ WaiterState.rejectedClosed := by
  constructor
  · cases st <;> rfl
  · unfold waiterRun
    have key : ∀ (l : List TransportEvent) (s : WaiterState),
        s ≠ WaiterState.rejectedClosed →
        l.foldl (waiterStep rid) s ≠ WaiterState.rejectedClosed := by
      intro l
      induction l with
      | nil => intro s hs; simpa using hs
      | cons e rest ih =>
        intro s hs
        exact ih _ (waiterStep_ne_rejectedClosed rid s e hs)
    exact key evs WaiterState.pending (by simp)

end YellowPay
